import Mathlib

/-!
Shallow embedding of the Mobile-Lis client (a React Native storefront app).

JavaScript objects used as string-keyed maps (AsyncStorage, axios headers,
the per-product sales counter) are modelled as association lists over
`String` keys.  JavaScript number arithmetic is modelled over `ℚ`; the
truthiness of `x || d` on numbers (`0`, `NaN`/absent are falsy) is modelled
by `jsOrQ`, and on strings (`""` is falsy) by `jsOrS`.
-/

/-- A JavaScript object viewed as a string-keyed map: an association list. -/
abbrev AListMap (α : Type) : Type := List (String × α)

/-- Property read `obj[k]`: the value of the first binding for `k`, if any. -/
def lookupA {α : Type} : AListMap α → String → Option α
  | [], _ => none
  | e :: t, k => if e.1 = k then some e.2 else lookupA t k

/-- Property delete (`AsyncStorage.removeItem`): drop every binding for `k`. -/
def removeA {α : Type} (l : AListMap α) (k : String) : AListMap α :=
  l.filter (fun e => e.1 != k)

/-- Property write `obj[k] = v`: overwrite the binding if present, else append. -/
def setA {α : Type} : AListMap α → String → α → AListMap α
  | [], k, v => [(k, v)]
  | e :: t, k, v => if e.1 = k then (k, v) :: t else e :: setA t k v

lemma lookupA_removeA_self {α : Type} (l : AListMap α) (k : String) :
    lookupA (removeA l k) k = none := by
  induction l with
  | nil => rfl
  | cons e t ih =>
    by_cases he : e.1 = k
    · simpa [removeA, List.filter_cons, he] using ih
    · simpa [removeA, List.filter_cons, he, lookupA] using ih

lemma lookupA_removeA_ne {α : Type} (l : AListMap α) (k k' : String)
    (h : k' ≠ k) : lookupA (removeA l k) k' = lookupA l k' := by
  induction l with
  | nil => rfl
  | cons e t ih =>
    by_cases he : e.1 = k
    · have hne : e.1 ≠ k' := fun hk => h (hk ▸ he ▸ rfl)
      simp only [removeA, List.filter_cons, he] at ih ⊢
      simpa [lookupA, hne] using ih
    · simp only [removeA, List.filter_cons, he] at ih ⊢
      by_cases hk' : e.1 = k'
      · simp [lookupA, hk', he, h]
      · simpa [lookupA, hk', he] using ih

lemma lookupA_setA_self {α : Type} (l : AListMap α) (k : String) (v : α) :
    lookupA (setA l k v) k = some v := by
  induction l with
  | nil => simp [setA, lookupA]
  | cons e t ih =>
    by_cases he : e.1 = k
    · simp [setA, he, lookupA]
    · simpa [setA, he, lookupA] using ih

lemma lookupA_setA_ne {α : Type} (l : AListMap α) (k k' : String) (v : α)
    (h : k' ≠ k) : lookupA (setA l k v) k' = lookupA l k' := by
  induction l with
  | nil => simp [setA, lookupA, Ne.symm h]
  | cons e t ih =>
    by_cases he : e.1 = k
    · simp [setA, he, lookupA, Ne.symm h]
    · by_cases hk' : e.1 = k'
      · simp [setA, he, lookupA, hk', h]
      · simpa [setA, he, lookupA, hk'] using ih

/-- JavaScript `x || d` on a possibly-absent number: `0` and absent are falsy. -/
def jsOrQ (x : Option ℚ) (d : ℚ) : ℚ :=
  match x with
  | none => d
  | some v => if v = 0 then d else v

/-- JavaScript `x || d` on a possibly-absent string: `""` and absent are falsy. -/
def jsOrS (x : Option String) (d : String) : String :=
  match x with
  | none => d
  | some v => if v = "" then d else v

/-- Semantics of `Number(q.toFixed(2))`: round to two decimal places, ties toward plus infinity. -/
def round2 (q : ℚ) : ℚ := (Int.floor (q * 100 + 1 / 2) : ℚ) / 100

/-- The AsyncStorage key under which the auth token is persisted. -/
def tokenKey : String := "@LisMobile:token"

/-- The AsyncStorage key under which the serialized user is persisted. -/
def userKey : String := "@LisMobile:user"

/-- Local device storage (`AsyncStorage`): a string-to-string key-value store. -/
abbrev Storage : Type := AListMap String

/-- Read one stored value, as `AsyncStorage.getItem`. -/
def getItem (s : Storage) (k : String) : Option String := lookupA s k

/-- Delete one stored value, as `AsyncStorage.removeItem`. -/
def removeItem (s : Storage) (k : String) : Storage := removeA s k

/-- Write one stored value, as `AsyncStorage.setItem`. -/
def setItem (s : Storage) (k : String) (v : String) : Storage := setA s k v

/-- Storage effect of `AuthContext.signOut`: remove the stored token, then the
stored user; the in-memory user state is set to null. -/
def signOut (s : Storage) : Storage :=
  removeItem (removeItem s tokenKey) userKey

/-- Startup read `AuthContext.loadStoredData`: read the stored user and token; the user state
becomes the stored user only when both values are present and truthy
(`if (storedUser && storedToken)`), otherwise it stays null. -/
def loadStoredData (s : Storage) : Option String :=
  match getItem s userKey, getItem s tokenKey with
  | some u, some t => if u = "" ∨ t = "" then none else some u
  | _, _ => none

/-- The three top-level navigator targets relevant to authentication. -/
inductive Screen
  | login
  | home
  | tabNavigator
deriving DecidableEq

/-- Top-level `AppNavigator`: renders nothing while loading; otherwise the Login screen
when the user state is null, else the admin Home stack or the user tabs. -/
def appNavigator (loading : Bool) (user : Option String) (admin : Bool) :
    Option Screen :=
  if loading then none
  else if user.isSome then some (if admin then Screen.home else Screen.tabNavigator)
  else some Screen.login

lemma clearedAuth_token (s : Storage) :
    getItem (removeItem (removeItem s tokenKey) userKey) tokenKey = none := by
  unfold getItem removeItem
  rw [lookupA_removeA_ne _ _ _ (by decide)]
  exact lookupA_removeA_self _ _

lemma clearedAuth_user (s : Storage) :
    getItem (removeItem (removeItem s tokenKey) userKey) userKey = none :=
  lookupA_removeA_self _ _

/-- C2: after `signOut`, the persisted token and user are absent from storage,
so `loadStoredData` leaves the user state null and the top-level navigator
(once loading has finished) renders the Login screen, whatever the prior
storage contents and admin flag were. -/
theorem signOut_returns_to_login (s : Storage) (admin : Bool) :
    getItem (signOut s) tokenKey = none ∧
    getItem (signOut s) userKey = none ∧
    loadStoredData (signOut s) = none ∧
    appNavigator false (loadStoredData (signOut s)) admin = some Screen.login := by
  have htok : getItem (signOut s) tokenKey = none := clearedAuth_token s
  have huser : getItem (signOut s) userKey = none := clearedAuth_user s
  have hload : loadStoredData (signOut s) = none := by
    unfold loadStoredData
    rw [huser]
  exact ⟨htok, huser, hload, by rw [hload]; rfl⟩

/-- The `api.interceptors.response` error handler: on HTTP 401 remove the stored
token and the stored user; no navigation action is produced for any status. -/
def responseInterceptor (status : Nat) (s : Storage) : Storage × Option Screen :=
  if status = 401 then
    (removeItem (removeItem s tokenKey) userKey, none)
  else
    (s, none)

/-- C4: a 401 response clears the stored token and user and performs no
navigation; any other error status leaves storage untouched (and also
performs no navigation). -/
theorem responseInterceptor_auth (status : Nat) (s : Storage) :
    (status = 401 →
      getItem (responseInterceptor status s).1 tokenKey = none ∧
      getItem (responseInterceptor status s).1 userKey = none ∧
      (responseInterceptor status s).2 = none) ∧
    (status ≠ 401 → responseInterceptor status s = (s, none)) := by
  constructor
  · intro h
    subst h
    exact ⟨clearedAuth_token s, clearedAuth_user s, rfl⟩
  · intro h
    simp [responseInterceptor, h]

/-- A sample storage state holding a token and a serialized user. -/
def demoStorage : Storage := [(tokenKey, "tok123"), (userKey, "user-json")]

/-- Witness for C4 at a concrete storage state: status 401 clears both keys,
status 500 leaves the storage unchanged. -/
theorem responseInterceptor_auth_witness :
    (getItem (responseInterceptor 401 demoStorage).1 tokenKey = none ∧
     getItem (responseInterceptor 401 demoStorage).1 userKey = none ∧
     (responseInterceptor 401 demoStorage).2 = none) ∧
    responseInterceptor 500 demoStorage = (demoStorage, none) :=
  ⟨(responseInterceptor_auth 401 demoStorage).1 rfl,
   (responseInterceptor_auth 500 demoStorage).2 (by decide)⟩

/-- Request headers, a string-keyed JavaScript object. -/
abbrev Headers : Type := AListMap String

/-- The `api.interceptors.request` handler: read the stored token; when it is truthy
(`if (token)`), set the `Authorization` header to `"Bearer " ++ token`. -/
def requestInterceptor (s : Storage) (headers : Headers) : Headers :=
  match getItem s tokenKey with
  | some t => if t = "" then headers else setA headers "Authorization" ("Bearer " ++ t)
  | none => headers

/-- Counterexample to C8 as stated: a stored empty-string token is present in
local storage, yet the interceptor adds no `Authorization` header, because the
JavaScript guard `if (token)` treats `""` as falsy. -/
theorem requestInterceptor_empty_token_cex :
    getItem [(tokenKey, "")] tokenKey = some "" ∧
    lookupA (requestInterceptor [(tokenKey, "")] []) "Authorization" = none := by
  constructor
  · rfl
  · rfl

/-- C8 (amended): if a non-empty token is stored, every outgoing request
carries `Authorization: Bearer <token>`; if no token is stored, or the stored
token is the empty string, the headers are left unchanged. -/
theorem requestInterceptor_bearer (s : Storage) (h : Headers) :
    (∀ t, getItem s tokenKey = some t → t ≠ "" →
      lookupA (requestInterceptor s h) "Authorization" = some ("Bearer " ++ t)) ∧
    (getItem s tokenKey = none → requestInterceptor s h = h) ∧
    (getItem s tokenKey = some "" → requestInterceptor s h = h) := by
  refine ⟨?_, ?_, ?_⟩
  · intro t ht hne
    unfold requestInterceptor
    rw [ht]
    simp only [if_neg hne]
    exact lookupA_setA_self _ _ _
  · intro ht
    unfold requestInterceptor
    rw [ht]
  · intro ht
    unfold requestInterceptor
    rw [ht]
    simp

/-- Witness for C8 (amended) at concrete states: a stored token `"tok123"`
yields the bearer header, and a token-free storage leaves headers unchanged. -/
theorem requestInterceptor_bearer_witness :
    lookupA (requestInterceptor demoStorage []) "Authorization" =
      some ("Bearer " ++ "tok123") ∧
    requestInterceptor [(userKey, "user-json")] [] = [] :=
  ⟨(requestInterceptor_bearer demoStorage []).1 "tok123" (by decide) (by decide),
   (requestInterceptor_bearer [(userKey, "user-json")] []).2.1 (by decide)⟩

/-- The `Product` entity (src/types): the fields consumed by the client screens. -/
structure Product where
  _id : String
  name : String
  description : String
  price : ℚ
  quantity : ℤ
  category : String
  image : Option String
deriving DecidableEq

/-- The `HomeScreen` category-filter effect: the category `all` selects the whole
product list, any other category keeps exactly the products whose `category`
field strictly equals the selected one. -/
def filteredProducts (selectedCategory : String) (products : List Product) :
    List Product :=
  if selectedCategory = "all" then products
  else products.filter (fun p => p.category == selectedCategory)

/-- C6: the category filter yields the entire list for `all`, and otherwise
exactly the products of the selected category, in their original order
(the filtered list is a sublist of the input). -/
theorem filteredProducts_spec (cat : String) (ps : List Product) :
    (cat = "all" → filteredProducts cat ps = ps) ∧
    (cat ≠ "all" →
      filteredProducts cat ps = ps.filter (fun p => p.category == cat) ∧
      (∀ p, p ∈ filteredProducts cat ps ↔ p ∈ ps ∧ p.category = cat) ∧
      (filteredProducts cat ps).Sublist ps) := by
  constructor
  · intro h
    simp [filteredProducts, h]
  · intro h
    refine ⟨by simp [filteredProducts, h], ?_, ?_⟩
    · intro p
      simp [filteredProducts, h, List.mem_filter]
    · simp only [filteredProducts, if_neg h]
      exact List.filter_sublist ps

/-- A sample product in the `masculino` category. -/
def prodM : Product := ⟨"p1", "Camisa", "desc", 10, 5, "masculino", none⟩

/-- A sample product in the `feminino` category. -/
def prodF : Product := ⟨"p2", "Vestido", "desc", 20, 3, "feminino", none⟩

/-- Witness for C6 at a concrete two-product list and both filter modes. -/
theorem filteredProducts_spec_witness :
    filteredProducts "all" [prodM, prodF] = [prodM, prodF] ∧
    filteredProducts "masculino" [prodM, prodF] =
      [prodM, prodF].filter (fun p => p.category == "masculino") :=
  ⟨(filteredProducts_spec "all" [prodM, prodF]).1 rfl,
   ((filteredProducts_spec "masculino" [prodM, prodF]).2 (by decide)).1⟩

/-- A rendered list-item card, keyed by the entry id (`key={..._id}`). -/
structure RenderedCard where
  key : String
  title : String
deriving DecidableEq

/-- The rendered body of a list screen once loading has finished. -/
inductive ListRender
  | errorText (msg : String)
  | emptyState
  | cards (cs : List RenderedCard)
deriving DecidableEq

/-- The card rendered for one product entry. -/
def productCard (p : Product) : RenderedCard := ⟨p._id, p.name⟩

/-- The `ProductListScreen` render branch: an error message when `error` is set,
the empty-state message when the list is empty, else `products.map`, one card
per product. -/
def productListRender (error : String) (products : List Product) : ListRender :=
  if error ≠ "" then ListRender.errorText error
  else if products.length = 0 then ListRender.emptyState
  else ListRender.cards (products.map productCard)

/-- A `StockList` record (StockListScreen): a custom list as rendered. -/
structure StockList where
  _id : String
  name : String
  products : List Product
  sharedWith : List String
deriving DecidableEq

/-- The card rendered for one custom-list entry. -/
def stockListCard (l : StockList) : RenderedCard := ⟨l._id, l.name⟩

/-- The `StockListScreen` render branch: error text, empty-state message, or
`lists.map`, one card per list. -/
def stockListRender (error : String) (lists : List StockList) : ListRender :=
  if error ≠ "" then ListRender.errorText error
  else if lists.length = 0 then ListRender.emptyState
  else ListRender.cards (lists.map stockListCard)

/-- The number of item cards in a rendered list body. -/
def renderedCardCount : ListRender → ℕ
  | ListRender.cards cs => cs.length
  | _ => 0

/-- C7: after a successful fetch (no error), a non-empty result renders exactly
one card per returned entry, and an empty result renders the empty state with
no cards, on both the product list screen and the stock list screen. -/
theorem listScreens_render_counts :
    (∀ ps : List Product, ps ≠ [] →
      productListRender "" ps = ListRender.cards (ps.map productCard) ∧
      renderedCardCount (productListRender "" ps) = ps.length) ∧
    productListRender "" ([] : List Product) = ListRender.emptyState ∧
    (∀ ls : List StockList, ls ≠ [] →
      stockListRender "" ls = ListRender.cards (ls.map stockListCard) ∧
      renderedCardCount (stockListRender "" ls) = ls.length) ∧
    stockListRender "" ([] : List StockList) = ListRender.emptyState := by
  refine ⟨?_, rfl, ?_, rfl⟩
  · intro ps hps
    have hlen : ps.length ≠ 0 := fun h => hps (List.length_eq_zero.mp h)
    constructor
    · simp [productListRender, hlen]
    · simp [productListRender, hlen, renderedCardCount]
  · intro ls hls
    have hlen : ls.length ≠ 0 := fun h => hls (List.length_eq_zero.mp h)
    constructor
    · simp [stockListRender, hlen]
    · simp [stockListRender, hlen, renderedCardCount]

/-- A sample custom-list record. -/
def demoStockList : StockList := ⟨"l1", "Lista A", [prodM], []⟩

/-- Witness for C7 at concrete one-element fetch results. -/
theorem listScreens_render_counts_witness :
    renderedCardCount (productListRender "" [prodM, prodF]) = 2 ∧
    renderedCardCount (stockListRender "" [demoStockList]) = 1 :=
  ⟨(listScreens_render_counts.1 [prodM, prodF] (by decide)).2,
   ((listScreens_render_counts.2.2.1) [demoStockList] (by simp [demoStockList])).2⟩

/-- Outcome of a form submit handler: immediate return, a blocked submission
with a validation message, or an issued HTTP request. -/
inductive HandlerOutcome
  | noop
  | blocked (msg : String)
  | request (method : String) (path : String)
deriving DecidableEq

/-- The field state of the product create form (all text inputs). -/
structure CreateForm where
  name : String
  description : String
  price : String
  quantity : String
deriving DecidableEq

/-- Create handler `ProductFormScreen.handleSubmit`: when any required field is empty
(`if (!name || !description || !price || !quantity)`), set the validation
message and return without a request; otherwise post the multipart form. -/
def handleSubmit (f : CreateForm) : HandlerOutcome :=
  if f.name = "" ∨ f.description = "" ∨ f.price = "" ∨ f.quantity = "" then
    HandlerOutcome.blocked "Por favor, preencha todos os campos"
  else
    HandlerOutcome.request "POST" "/products"

/-- The field state of the product edit dialog (all text inputs). -/
structure EditForm where
  name : String
  description : String
  price : String
  quantity : String
  category : String
deriving DecidableEq

/-- Edit handler `ProductListScreen.handleEditSubmit`: return early only when no product is
selected; otherwise immediately issue the PUT request — the handler performs
no empty-field validation. -/
def handleEditSubmit (selected : Option Product) (f : EditForm) : HandlerOutcome :=
  match selected, f with
  | none, _ => HandlerOutcome.noop
  | some p, _ => HandlerOutcome.request "PUT" ("/products/" ++ p._id)

/-- The edit form with every required field blank. -/
def emptyEditForm : EditForm := ⟨"", "", "", "", ""⟩

/-- Counterexample to C3 as stated: with every field of the edit form empty,
`handleEditSubmit` still issues the HTTP PUT request instead of blocking with
a validation message. -/
theorem handleEditSubmit_no_validation_cex :
    emptyEditForm.name = "" ∧
    handleEditSubmit (some prodM) emptyEditForm =
      HandlerOutcome.request "PUT" ("/products/" ++ prodM._id) :=
  ⟨rfl, rfl⟩

/-- C3 (amended): the create form blocks with a non-empty validation message
whenever a required field is empty, but the edit form performs no such
validation: with a product selected it always issues the PUT request. -/
theorem productForm_validation (f : CreateForm) (p : Product) (g : EditForm) :
    ((f.name = "" ∨ f.description = "" ∨ f.price = "" ∨ f.quantity = "") →
      ∃ msg, msg ≠ "" ∧ handleSubmit f = HandlerOutcome.blocked msg) ∧
    handleEditSubmit (some p) g =
      HandlerOutcome.request "PUT" ("/products/" ++ p._id) := by
  constructor
  · intro h
    refine ⟨"Por favor, preencha todos os campos", by decide, ?_⟩
    unfold handleSubmit
    rw [if_pos h]
  · rfl

/-- Witness for C3 (amended): a create form with an empty name is blocked with
a message, and the fully empty edit form still produces the PUT request. -/
theorem productForm_validation_witness :
    (∃ msg, msg ≠ "" ∧
      handleSubmit ⟨"", "desc", "10", "2"⟩ = HandlerOutcome.blocked msg) ∧
    handleEditSubmit (some prodF) emptyEditForm =
      HandlerOutcome.request "PUT" ("/products/" ++ prodF._id) :=
  ⟨(productForm_validation ⟨"", "desc", "10", "2"⟩ prodF emptyEditForm).1 (Or.inl rfl),
   (productForm_validation ⟨"", "desc", "10", "2"⟩ prodF emptyEditForm).2⟩

/-- The `StockListScreen` product-selection toggle (`setSelectedProducts`): remove
the id when present (`prev.filter(id => id !== product._id)`), append it
otherwise (`[...prev, product._id]`). -/
def toggleProduct (pid : String) (prev : List String) : List String :=
  if prev.contains pid then prev.filter (fun id => id != pid)
  else prev ++ [pid]

lemma mem_toggleProduct (pid x : String) (prev : List String) :
    x ∈ toggleProduct pid prev ↔
      (pid ∈ prev ∧ x ∈ prev ∧ x ≠ pid) ∨ (pid ∉ prev ∧ (x ∈ prev ∨ x = pid)) := by
  unfold toggleProduct
  by_cases hmem : pid ∈ prev
  · rw [if_pos (by simpa using List.elem_iff.mpr hmem)]
    simp [List.mem_filter, hmem]
  · rw [if_neg (by simpa using fun h => hmem (List.elem_iff.mp h))]
    simp [hmem]

/-- C10: applying the selection toggle twice with the same id restores the
original selection up to set equality; one application flips exactly that
membership of that id and leaves the membership of every other id unchanged. -/
theorem toggleProduct_toggle (prev : List String) (pid : String) :
    (∀ x, x ∈ toggleProduct pid (toggleProduct pid prev) ↔ x ∈ prev) ∧
    (pid ∈ toggleProduct pid prev ↔ pid ∉ prev) ∧
    (∀ x, x ≠ pid → (x ∈ toggleProduct pid prev ↔ x ∈ prev)) := by
  have hpid : pid ∈ toggleProduct pid prev ↔ pid ∉ prev := by
    rw [mem_toggleProduct]
    tauto
  refine ⟨?_, hpid, ?_⟩
  · intro x
    simp only [mem_toggleProduct]
    by_cases hp : pid ∈ prev <;> by_cases hx : x = pid <;>
      simp only [hp, hx, not_true, not_false_iff] <;> tauto
  · intro x hx
    rw [mem_toggleProduct]
    tauto

/-- Witness for C10 at the concrete selection `["a", "b"]` and id `"a"`. -/
theorem toggleProduct_toggle_witness :
    ("b" ∈ toggleProduct "a" (toggleProduct "a" ["a", "b"]) ↔ "b" ∈ ["a", "b"]) ∧
    ("a" ∈ toggleProduct "a" ["a", "b"] ↔ "a" ∉ ["a", "b"]) ∧
    ("b" ∈ toggleProduct "a" ["a", "b"] ↔ "b" ∈ ["a", "b"]) :=
  ⟨(toggleProduct_toggle ["a", "b"] "a").1 "b",
   (toggleProduct_toggle ["a", "b"] "a").2.1,
   (toggleProduct_toggle ["a", "b"] "a").2.2 "b" (by decide)⟩

/-- A raw product line of a fetched summary sale record. -/
structure RawSaleProduct where
  productId : String
  name : String
  quantity : ℤ
  price : ℚ
deriving DecidableEq

/-- A merged product line (one `groupedProducts` entry). -/
structure SaleProduct where
  productId : String
  name : String
  quantity : ℤ
  price : ℚ
  subtotal : ℚ
deriving DecidableEq

/-- A raw sale record as returned by `/api/sales/summary`; `userName`, `total`
and `commission` may be absent. -/
structure RawSale where
  _id : String
  userId : String
  userName : Option String
  products : List RawSaleProduct
  total : Option ℚ
  commission : Option ℚ
  createdAt : String
deriving DecidableEq

/-- A formatted sale, the element type of the `SalesSummaryScreen` state. -/
structure FormattedSale where
  _id : String
  userId : String
  userName : String
  products : List SaleProduct
  total : ℚ
  commission : ℚ
  createdAt : String
deriving DecidableEq

/-- A fresh accumulator entry for a product id:
`{ productId, name, quantity: 0, price, subtotal: 0 }`. -/
def initEntry (p : RawSaleProduct) : SaleProduct :=
  ⟨p.productId, p.name, 0, p.price, 0⟩

/-- Merge step `acc[key].quantity += product.quantity` and
`acc[key].subtotal += product.quantity * product.price`. -/
def bumpEntry (e : SaleProduct) (p : RawSaleProduct) : SaleProduct :=
  { e with
    quantity := e.quantity + p.quantity
    subtotal := e.subtotal + p.quantity * p.price }

/-- One step of the `sale.products.reduce` that merges duplicate lines. -/
def groupStep (acc : List SaleProduct) (p : RawSaleProduct) : List SaleProduct :=
  if acc.any (fun e => e.productId == p.productId) then
    acc.map (fun e => if e.productId == p.productId then bumpEntry e p else e)
  else
    acc ++ [bumpEntry (initEntry p) p]

/-- The `groupedProducts` reduce, with `Object.values` read in insertion order. -/
def groupProducts (ps : List RawSaleProduct) : List SaleProduct :=
  ps.foldl groupStep []

/-- One formatted sale of `SalesSummaryScreen.fetchSales`: merge duplicate
product lines, default the user name, and apply the numeric fallbacks
`Number(sale.total) || 0` and
`Number(sale.commission) || Number((total * 0.3).toFixed(2))`. -/
def formatSale (s : RawSale) : FormattedSale :=
  let total := jsOrQ s.total 0
  let commission := jsOrQ s.commission (round2 (total * (3 / 10)))
  ⟨s._id, s.userId, jsOrS s.userName "Usuário não identificado",
    groupProducts s.products, total, commission, s.createdAt⟩

/-- The same formatting with the duplicate-line merging skipped: every raw
line becomes its own line with its own subtotal. -/
def formatSaleUngrouped (s : RawSale) : FormattedSale :=
  let total := jsOrQ s.total 0
  let commission := jsOrQ s.commission (round2 (total * (3 / 10)))
  ⟨s._id, s.userId, jsOrS s.userName "Usuário não identificado",
    s.products.map (fun p => bumpEntry (initEntry p) p), total, commission,
    s.createdAt⟩

/-- Aggregate `totalVendas`: `sales.reduce((acc, sale) => acc + sale.total, 0)`. -/
def totalVendas (sales : List FormattedSale) : ℚ :=
  sales.foldl (fun acc s => acc + s.total) 0

/-- Aggregate `totalComissoes`: `sales.reduce((acc, sale) => acc + sale.commission, 0)`. -/
def totalComissoes (sales : List FormattedSale) : ℚ :=
  sales.foldl (fun acc s => acc + s.commission) 0

/-- A sale record as consumed by `SalesScreen` (only the fields it reads). -/
structure SaleRecord where
  userId : String
  products : List (String × ℤ)
  total : ℚ
deriving DecidableEq

/-- Summary `SalesScreen.calculateTotals`: the quantity total sums the per-product
counts clamped at zero (`Math.max(0, quantity)`); the money total sums the
backend sale totals (`allSales.reduce((acc, sale) => acc + sale.total, 0)`). -/
def calculateTotals (allSales : List SaleRecord) (sales : AListMap ℤ) : ℤ × ℚ :=
  (sales.foldl (fun acc e => acc + max 0 e.2) 0,
   allSales.foldl (fun acc s => acc + s.total) 0)

lemma foldl_add_map {α : Type} (f : α → ℚ) (l : List α) (a : ℚ) :
    l.foldl (fun acc x => acc + f x) a = a + (l.map f).sum := by
  induction l generalizing a with
  | nil => simp
  | cons x t ih => simp [ih, add_assoc]

lemma jsOrQ_zero_default (x : Option ℚ) : jsOrQ x 0 = x.getD 0 := by
  cases x with
  | none => rfl
  | some t => by_cases ht : t = 0 <;> simp [jsOrQ, ht]

lemma jsOrQ_of_ne_zero (c : ℚ) (d : ℚ) (h : c ≠ 0) : jsOrQ (some c) d = c := by
  simp [jsOrQ, h]

/-- A summary sale record whose commission field is zero while its total
is 100. -/
def rawSaleC : RawSale := ⟨"s3", "u3", none, [], some 100, some 0, "2024-01-03"⟩

/-- Counterexample to C1 as stated: a fetched collection holding one record
with commission field 0 and total 100 aggregates a `totalComissoes` of 30
(the 30 percent fallback of `fetchSales`), not the sum 0 of the commission
fields of the records. -/
theorem salesSummary_commission_cex :
    totalComissoes ([rawSaleC].map formatSale) = 30 ∧
    ([rawSaleC].map (fun s => s.commission.getD 0)).sum = 0 := by
  constructor
  · show (0 : ℚ) + (formatSale rawSaleC).commission = 30
    show (0 : ℚ) + jsOrQ (some 0) (round2 (jsOrQ (some 100) 0 * (3 / 10))) = 30
    norm_num [jsOrQ, round2]
  · simp [rawSaleC]

/-- C1 (amended): `totalVendas` is unconditionally the sum of the record
`total` fields (an absent total counting as 0); `totalComissoes` is the sum
of the record `commission` fields provided every commission field is present
and nonzero — a record with an absent or zero commission is instead assigned
30 percent of its total, rounded to two decimal places; merging duplicate
product lines within a sale changes neither aggregate (the ungrouped
formatting yields the same totals), and `SalesScreen.calculateTotals`
likewise sums the fetched record totals. -/
theorem salesSummary_totals (raw : List RawSale) (recs : List SaleRecord)
    (qmap : AListMap ℤ) :
    totalVendas (raw.map formatSale) =
      (raw.map (fun s => s.total.getD 0)).sum ∧
    ((∀ s ∈ raw, ∃ c, c ≠ 0 ∧ s.commission = some c) →
      totalComissoes (raw.map formatSale) =
        (raw.map (fun s => s.commission.getD 0)).sum) ∧
    totalVendas (raw.map formatSale) =
      totalVendas (raw.map formatSaleUngrouped) ∧
    totalComissoes (raw.map formatSale) =
      totalComissoes (raw.map formatSaleUngrouped) ∧
    (calculateTotals recs qmap).2 = (recs.map SaleRecord.total).sum := by
  have hTV : ∀ g : RawSale → FormattedSale,
      totalVendas (raw.map g) = (raw.map (fun s => (g s).total)).sum := by
    intro g
    rw [totalVendas, foldl_add_map FormattedSale.total, zero_add, List.map_map]
    rfl
  have hTC : ∀ g : RawSale → FormattedSale,
      totalComissoes (raw.map g) = (raw.map (fun s => (g s).commission)).sum := by
    intro g
    rw [totalComissoes, foldl_add_map FormattedSale.commission, zero_add,
      List.map_map]
    rfl
  refine ⟨?_, ?_, ?_, ?_, ?_⟩
  · rw [hTV formatSale]
    congr 1
    apply List.map_congr_left
    intro s hs
    exact jsOrQ_zero_default s.total
  · intro h
    rw [hTC formatSale]
    congr 1
    apply List.map_congr_left
    intro s hs
    obtain ⟨c, hc, hcomm⟩ := h s hs
    show jsOrQ s.commission _ = s.commission.getD 0
    rw [hcomm, jsOrQ_of_ne_zero c _ hc]
    rfl
  · rw [hTV formatSale, hTV formatSaleUngrouped]
    exact congrArg List.sum (List.map_congr_left (fun s _ => rfl))
  · rw [hTC formatSale, hTC formatSaleUngrouped]
    exact congrArg List.sum (List.map_congr_left (fun s _ => rfl))
  · rw [calculateTotals, foldl_add_map SaleRecord.total, zero_add]

/-- A raw summary sale with a duplicated product line. -/
def rawSaleA : RawSale :=
  ⟨"s1", "u1", some "Ana",
    [⟨"p1", "Camisa", 2, 10⟩, ⟨"p1", "Camisa", 1, 10⟩], some 30, some 9,
    "2024-01-01"⟩

/-- A backend sale record for `SalesScreen`. -/
def saleRecA : SaleRecord := ⟨"u1", [("p1", 3)], 30⟩

/-- Witness for C1 at a one-record fetch whose sale holds duplicate lines and
a present, nonzero commission field. -/
theorem salesSummary_totals_witness :
    totalVendas ([rawSaleA].map formatSale) =
      ([rawSaleA].map (fun s => s.total.getD 0)).sum ∧
    totalComissoes ([rawSaleA].map formatSale) =
      ([rawSaleA].map (fun s => s.commission.getD 0)).sum ∧
    totalVendas ([rawSaleA].map formatSale) =
      totalVendas ([rawSaleA].map formatSaleUngrouped) ∧
    totalComissoes ([rawSaleA].map formatSale) =
      totalComissoes ([rawSaleA].map formatSaleUngrouped) ∧
    (calculateTotals [saleRecA] [("p1", 3)]).2 =
      ([saleRecA].map SaleRecord.total).sum := by
  have h := salesSummary_totals [rawSaleA] [saleRecA] [("p1", 3)]
  exact ⟨h.1, h.2.1 (by
    intro s hs
    rw [List.mem_singleton] at hs
    subst hs
    exact ⟨9, by norm_num, rfl⟩), h.2.2⟩

/-- A product as consumed by `SalesScreen` (the commission may be absent). -/
structure SProduct where
  _id : String
  name : String
  price : ℚ
  commission : Option ℚ
deriving DecidableEq

/-- The `SalesScreen.loadProducts` mapping: store
`commission: product.commission || product.price * 0.3` on each product. -/
def loadProduct (p : SProduct) : SProduct :=
  { p with commission := some (jsOrQ p.commission (p.price * (3 / 10))) }

/-- The commission shown in a `SalesScreen` table row:
`product.commission || product.price * 0.3`. -/
def displayedCommission (p : SProduct) : ℚ :=
  jsOrQ p.commission (p.price * (3 / 10))

lemma jsOrQ_falsy (x : Option ℚ) (d : ℚ) (h : x = none ∨ x = some 0) :
    jsOrQ x d = d := by
  rcases h with h | h <;> simp [jsOrQ, h]

lemma jsOrQ_some_self (d : ℚ) : jsOrQ (some d) d = d := by
  by_cases h : d = 0 <;> simp [jsOrQ, h]

/-- C5: a product with an absent or zero commission field is displayed on the
sales screen with a commission of 30 percent of its price, and a summary sale
record with an absent or zero commission field is assigned 30 percent of its
total, rounded to two decimal places. -/
theorem commission_defaults (p : SProduct) (s : RawSale) :
    ((p.commission = none ∨ p.commission = some 0) →
      displayedCommission (loadProduct p) = p.price * (3 / 10)) ∧
    ((s.commission = none ∨ s.commission = some 0) →
      (formatSale s).commission = round2 ((formatSale s).total * (3 / 10))) := by
  constructor
  · intro h
    show jsOrQ (some (jsOrQ p.commission (p.price * (3 / 10))))
      (p.price * (3 / 10)) = p.price * (3 / 10)
    rw [jsOrQ_falsy p.commission _ h, jsOrQ_some_self]
  · intro h
    show jsOrQ s.commission (round2 (jsOrQ s.total 0 * (3 / 10))) =
      round2 ((formatSale s).total * (3 / 10))
    rw [jsOrQ_falsy s.commission _ h]
    rfl

/-- A summary sale record with a zero commission field. -/
def rawSaleB : RawSale := ⟨"s2", "u2", none, [], some 10, some 0, "2024-01-02"⟩

/-- Witness for C5: a commission-free product priced 10 displays commission 3,
and a summary record with zero commission gets 30 percent of its total. -/
theorem commission_defaults_witness :
    displayedCommission (loadProduct ⟨"p9", "Bolsa", 10, none⟩) =
      (10 : ℚ) * (3 / 10) ∧
    (formatSale rawSaleB).commission =
      round2 ((formatSale rawSaleB).total * (3 / 10)) :=
  ⟨(commission_defaults ⟨"p9", "Bolsa", 10, none⟩ rawSaleB).1 (Or.inl rfl),
   (commission_defaults ⟨"p9", "Bolsa", 10, none⟩ rawSaleB).2 (Or.inr rfl)⟩

/-- The `SalesScreen` component state touched by `handleQuantityChange`. -/
structure SalesState where
  sales : AListMap ℤ
  success : String
  error : String
deriving DecidableEq

/-- The sale payload posted to `/api/sales` by one handler invocation. -/
structure SaleRequest where
  productId : String
  quantity : ℤ
  total : ℚ
deriving DecidableEq

/-- Sale handler `SalesScreen.handleQuantityChange`: return untouched when the product is
unknown or when a decrement is requested at per-product quantity zero;
otherwise post a one-line sale of quantity plus or minus one, update the local
count on success or set the error message on failure, and run the trailing
extra validation, which can only overwrite the error message. -/
def handleQuantityChange (products : List SProduct) (st : SalesState)
    (productId : String) (increment : Bool) (postOk : Bool) :
    SalesState × Option SaleRequest :=
  match products.find? (fun p => p._id == productId) with
  | none => (st, none)
  | some product =>
    let currentQuantity : ℤ := (lookupA st.sales productId).getD 0
    if ¬increment ∧ currentQuantity = 0 then (st, none)
    else
      let newQuantity := if increment then currentQuantity + 1
        else currentQuantity - 1
      let req : SaleRequest :=
        ⟨productId, if increment then 1 else -1,
          if increment then product.price else -product.price⟩
      let st1 :=
        if postOk then
          { st with
            sales := setA st.sales productId newQuantity
            success := if increment then "Venda registrada!"
              else "Devolução registrada!" }
        else
          { st with error := "Erro ao processar venda" }
      let st2 :=
        if increment ∧ product.price < 0 then
          { st1 with error := "Preço do produto não pode ser negativo." }
        else if ¬increment ∧ (currentQuantity ≤ 0 ∨ product.price < 0) then
          { st1 with
            error := "Não é possível devolver mais do que foi vendido ou preço negativo." }
        else st1
      (st2, some req)

/-- The sales state before any handler invocation: the empty sales map. -/
def initialSalesState : SalesState := ⟨[], "", ""⟩

/-- Run a sequence of handler invocations
(product id, increment flag, post outcome) from the initial state. -/
def runSalesEvents (products : List SProduct)
    (events : List (String × Bool × Bool)) : SalesState :=
  events.foldl
    (fun st e => (handleQuantityChange products st e.1 e.2.1 e.2.2).1)
    initialSalesState

/-- All per-product counts in the sales state are non-negative. -/
def salesNonneg (st : SalesState) : Prop :=
  ∀ pid, 0 ≤ ((lookupA st.sales pid).getD 0 : ℤ)

lemma lookupA_setA_nonneg (sales : AListMap ℤ) (pid x : String) (q : ℤ)
    (hq : 0 ≤ q) (h : ∀ y, 0 ≤ ((lookupA sales y).getD 0 : ℤ)) :
    0 ≤ ((lookupA (setA sales pid q) x).getD 0 : ℤ) := by
  by_cases hx : x = pid
  · subst hx
    rw [lookupA_setA_self]
    simpa using hq
  · rw [lookupA_setA_ne _ _ _ _ hx]
    exact h x

lemma handleQuantityChange_preserves_nonneg (products : List SProduct)
    (st : SalesState) (pid : String) (inc ok : Bool) (h : salesNonneg st) :
    salesNonneg (handleQuantityChange products st pid inc ok).1 := by
  unfold handleQuantityChange
  cases hfind : products.find? (fun p => p._id == pid) with
  | none => exact h
  | some product =>
    simp only []
    by_cases hguard : ¬(inc = true) ∧ ((lookupA st.sales pid).getD 0 : ℤ) = 0
    · rw [if_pos hguard]
      exact h
    · rw [if_neg hguard]
      intro x
      simp only [apply_ite SalesState.sales, ite_self]
      by_cases hok : ok = true
      · rw [if_pos hok]
        by_cases hinc : inc = true
        · simp only [hinc, if_true]
          exact lookupA_setA_nonneg _ _ _ _ (by have := h pid; omega) h
        · simp only [hinc, if_false]
          have hcur : ((lookupA st.sales pid).getD 0 : ℤ) ≠ 0 :=
            fun hz => hguard ⟨hinc, hz⟩
          exact lookupA_setA_nonneg _ _ _ _ (by have := h pid; omega) h
      · rw [if_neg hok]
        exact h x

/-- C9: a decrement request at per-product quantity zero leaves the state
untouched and posts no sale, and consequently no sequence of handler
invocations starting from the empty sales map drives any stored per-product
quantity below zero. -/
theorem salesHandler_no_negative_quantities (products : List SProduct) :
    (∀ (st : SalesState) (pid : String) (postOk : Bool),
      ((lookupA st.sales pid).getD 0 : ℤ) = 0 →
      handleQuantityChange products st pid false postOk = (st, none)) ∧
    (∀ (events : List (String × Bool × Bool)) (pid : String),
      0 ≤ ((lookupA (runSalesEvents products events).sales pid).getD 0 : ℤ)) := by
  constructor
  · intro st pid postOk hzero
    unfold handleQuantityChange
    cases hfind : products.find? (fun p => p._id == pid) with
    | none => rfl
    | some product =>
      simp only []
      rw [if_pos ⟨by simp, hzero⟩]
  · intro events
    have hinv : salesNonneg (runSalesEvents products events) := by
      unfold runSalesEvents
      have hbase : salesNonneg initialSalesState := by
        intro pid
        simp [initialSalesState, lookupA]
      generalize initialSalesState = st0 at hbase ⊢
      induction events generalizing st0 with
      | nil => exact hbase
      | cons e t ih =>
        exact ih _ (handleQuantityChange_preserves_nonneg products st0 e.1
          e.2.1 e.2.2 hbase)
    exact hinv

/-- Witness for C9: a decrement on a fresh product id is a no-op, and a
concrete event sequence keeps every count non-negative. -/
theorem salesHandler_no_negative_quantities_witness :
    handleQuantityChange [loadProduct ⟨"p9", "Bolsa", 10, none⟩]
      initialSalesState "p9" false true = (initialSalesState, none) ∧
    0 ≤ ((lookupA (runSalesEvents [loadProduct ⟨"p9", "Bolsa", 10, none⟩]
      [("p9", true, true), ("p9", false, true), ("p9", false, true)]).sales
      "p9").getD 0 : ℤ) :=
  ⟨(salesHandler_no_negative_quantities
      [loadProduct ⟨"p9", "Bolsa", 10, none⟩]).1 initialSalesState "p9" true rfl,
   (salesHandler_no_negative_quantities
      [loadProduct ⟨"p9", "Bolsa", 10, none⟩]).2
      [("p9", true, true), ("p9", false, true), ("p9", false, true)] "p9"⟩
